import Mathlib

/-!
Verification of the Borrowing & Fee Engine of the library-management
repository (`services/library_service.py`), shallowly embedded in Lean.

Conventions of the embedding:
* A Python `datetime` is a `DateTime`: a calendar day ordinal (`day : Int`)
  plus a time-of-day component (`tod : Nat`) that `.date()` discards.
* Monetary amounts are rationals (every amount the engine manipulates is an
  exact binary float, so float arithmetic on them is exact and matches `ℚ`).
* The persistence layer (`database` module) and the payment gateway
  (`payment_service` module) are external collaborators of the engine; they
  are modelled from the contracts the spec states for them, and gateway
  calls are represented by the outcome the gateway would produce.
* Fallible collaborator mutations return `Bool × Database` mirroring the
  Python `(success flag, resulting state)`.
-/

/-- A timestamp: calendar day ordinal plus a time-of-day that `date()` ignores. -/
structure DateTime where
  day : Int
  tod : Nat := 0
deriving DecidableEq, Repr

/-- Python `dt.date()`: the calendar date of a timestamp (time-of-day dropped). -/
def DateTime.date (dt : DateTime) : Int := dt.day

/-- Python `dt + timedelta(days=n)`. -/
def DateTime.addDays (dt : DateTime) (n : Int) : DateTime := { dt with day := dt.day + n }

/-- Abstraction of `dt.strftime("%Y-%m-%d")`: a rendering of the calendar date
only (injective in the date; the exact digits of the rendering are not load
bearing for any claim). -/
def fmt_date (dt : DateTime) : String := toString dt.day

/-- Python `_monetize`: round a monetary amount to 2 decimal places.  The
engine only ever feeds it exact multiples of $0.50 (and sums thereof), on
which any 2-decimal rounding rule is the identity, so the tie-breaking rule
of `round` versus the float `%.2f` formatting is unobservable. -/
def monetize (amount : ℚ) : ℚ := (round (amount * 100) : ℤ) / 100

/-- Rendering of `f"{q:.2f}"` for the non-negative exact-cent amounts the
engine prints in messages. -/
def fmt_money (q : ℚ) : String :=
  let cents : Int := round (q * 100)
  let n : Nat := cents.toNat
  toString (n / 100) ++ "." ++ (if n % 100 < 10 then "0" else "") ++ toString (n % 100)

/-- Python `_compute_fee_from_due_and_end(due_dt, end_dt)`: `(fee, days_overdue)`.
`none` models an absent (`None`, unparseable) timestamp. -/
def compute_fee_from_due_and_end (due_dt end_dt : Option DateTime) : ℚ × Int :=
  match due_dt, end_dt with
  | some due, some e =>
    let days_overdue : Int := e.date - due.date
    if days_overdue ≤ 0 then (0, 0)
    else
      let first_seven : Int := min days_overdue 7
      let remainder : Int := max (days_overdue - 7) 0
      let fee : ℚ := (first_seven : ℚ) * (1/2) + (remainder : ℚ) * 1
      (monetize (min fee 15), days_overdue)
  | _, _ => (0, 0)

/-- The tiered fee formula exactly as the spec states it, as a function of the
overdue-day count: `min(0.50 × min(days,7) + 1.00 × max(days−7,0), 15.00)`
for positive `days`, `0` otherwise. -/
def spec_fee_formula (days : Int) : ℚ :=
  if days ≤ 0 then 0
  else min ((1/2 : ℚ) * ((min days 7 : Int) : ℚ) + 1 * ((max (days - 7) 0 : Int) : ℚ)) 15

lemma monetize_eq_self (q : ℚ) (c : ℤ) (h : q * 100 = (c : ℚ)) : monetize q = q := by
  have h100 : (100 : ℚ) ≠ 0 := by norm_num
  have hq : q = (c : ℚ) / 100 := by
    field_simp
    linarith [h]
  rw [monetize, h, round_intCast, hq]

lemma fee_cents (d : Int) :
    (min ((min d 7 : Int) * (1/2 : ℚ) + ((max (d - 7) 0 : Int) : ℚ) * 1) 15) * 100 =
      ((min (min d 7 * 50 + max (d - 7) 0 * 100) 1500 : ℤ) : ℚ) := by
  push_cast
  rw [min_mul_of_nonneg _ _ (by norm_num : (0:ℚ) ≤ 100)]
  norm_num
  ring_nf

lemma compute_fee_some_pos (due e : DateTime) (h : 0 < e.date - due.date) :
    compute_fee_from_due_and_end (some due) (some e) =
      (min (((min (e.date - due.date) 7 : Int) : ℚ) * (1/2 : ℚ) +
        ((max (e.date - due.date - 7) 0 : Int) : ℚ) * 1) 15, e.date - due.date) := by
  simp only [compute_fee_from_due_and_end]
  rw [if_neg (by omega : ¬ e.date - due.date ≤ 0)]
  rw [monetize_eq_self _ _ (fee_cents (e.date - due.date))]

lemma compute_fee_some_nonpos (due e : DateTime) (h : e.date - due.date ≤ 0) :
    compute_fee_from_due_and_end (some due) (some e) = (0, 0) := by
  rw [compute_fee_from_due_and_end]
  simp [h]

lemma spec_fee_formula_nonneg (d : Int) : 0 ≤ spec_fee_formula d := by
  rw [spec_fee_formula]
  split
  · exact le_refl 0
  · rename_i hd
    push_neg at hd
    have h1 : (0 : ℚ) ≤ ((min d 7 : Int) : ℚ) := by
      have : (0 : ℤ) ≤ min d 7 := le_min (le_of_lt hd) (by norm_num)
      exact_mod_cast this
    have h2 : (0 : ℚ) ≤ ((max (d - 7) 0 : Int) : ℚ) := by
      have : (0 : ℤ) ≤ max (d - 7) 0 := le_max_right _ _
      exact_mod_cast this
    exact le_min (by nlinarith) (by norm_num)

lemma spec_fee_formula_le (d : Int) : spec_fee_formula d ≤ 15 := by
  rw [spec_fee_formula]
  split
  · norm_num
  · exact min_le_right _ _

lemma spec_fee_formula_mono {d1 d2 : Int} (h : d1 ≤ d2) :
    spec_fee_formula d1 ≤ spec_fee_formula d2 := by
  rcases le_or_lt d1 0 with h1 | h1
  · rw [spec_fee_formula, if_pos h1]
    exact spec_fee_formula_nonneg d2
  · have h2 : ¬ d2 ≤ 0 := by omega
    rw [spec_fee_formula, spec_fee_formula, if_neg (by omega), if_neg h2]
    have hmin : ((min d1 7 : Int) : ℚ) ≤ ((min d2 7 : Int) : ℚ) := by
      exact_mod_cast min_le_min h (le_refl (7 : ℤ))
    have hmax : ((max (d1 - 7) 0 : Int) : ℚ) ≤ ((max (d2 - 7) 0 : Int) : ℚ) := by
      exact_mod_cast max_le_max (by omega : d1 - 7 ≤ d2 - 7) (le_refl (0 : ℤ))
    apply min_le_min _ (le_refl (15 : ℚ))
    nlinarith

lemma compute_fee_fst_eq (p q : Option DateTime) :
    (compute_fee_from_due_and_end p q).1 =
      spec_fee_formula (compute_fee_from_due_and_end p q).2 := by
  match p, q with
  | none, none => simp [compute_fee_from_due_and_end, spec_fee_formula]
  | none, some e => simp [compute_fee_from_due_and_end, spec_fee_formula]
  | some d, none => simp [compute_fee_from_due_and_end, spec_fee_formula]
  | some due, some e =>
    rcases le_or_lt (e.date - due.date) 0 with h | h
    · rw [compute_fee_some_nonpos due e h]
      simp [spec_fee_formula]
    · rw [compute_fee_some_pos due e h]
      rw [spec_fee_formula, if_neg (by omega)]
      ring_nf

lemma compute_fee_snd_nonneg (p q : Option DateTime) :
    0 ≤ (compute_fee_from_due_and_end p q).2 := by
  match p, q with
  | none, none => simp [compute_fee_from_due_and_end]
  | none, some e => simp [compute_fee_from_due_and_end]
  | some d, none => simp [compute_fee_from_due_and_end]
  | some due, some e =>
    rcases le_or_lt (e.date - due.date) 0 with h | h
    · rw [compute_fee_some_nonpos due e h]
    · rw [compute_fee_some_pos due e h]
      exact le_of_lt h

/-! ## Data model and persistence collaborator -/

/-- A catalog row of the `books` table. -/
structure Book where
  id : Nat
  title : String
  author : String
  isbn : String
  total_copies : Int
  available_copies : Int
deriving DecidableEq, Repr

/-- A row of the `borrow_records` table.  `due_date` is `Option` because a
stored value may fail to parse back into a timestamp; `return_date = none`
means the record is active. -/
structure BorrowRecord where
  patron_id : String
  book_id : Nat
  borrow_date : DateTime
  due_date : Option DateTime
  return_date : Option DateTime
deriving DecidableEq, Repr

/-- A record is active iff its return date is unset. -/
def BorrowRecord.isActive (r : BorrowRecord) : Bool := r.return_date.isNone

/-- The persisted state the engine reads and writes. -/
structure Database where
  books : List Book
  borrow_records : List BorrowRecord
deriving DecidableEq, Repr

/-- Modelled from the spec: persistence `getBookById(id)` — CRUD lookup of a
book by identifier (the `database` module is an external collaborator). -/
def get_book_by_id (db : Database) (book_id : Nat) : Option Book :=
  db.books.find? (fun b => b.id == book_id)

/-- Modelled from the spec: persistence `getBookByIsbn(isbn)`. -/
def get_book_by_isbn (db : Database) (isbn : String) : Option Book :=
  db.books.find? (fun b => b.isbn == isbn)

/-- Modelled from the spec: persistence `insertBook(title,author,isbn,total,available)`;
a fresh identifier is assigned and the row stored. -/
def insert_book (db : Database) (title author isbn : String) (total available : Int) :
    Bool × Database :=
  (true, { db with books := db.books ++
    [{ id := db.books.length + 1, title := title, author := author, isbn := isbn,
       total_copies := total, available_copies := available }] })

/-- Adjust `available_copies` by `delta` on every row whose id matches (SQL
`UPDATE books ... WHERE id = ?`). -/
def set_avail (books : List Book) (book_id : Nat) (delta : Int) : List Book :=
  books.map (fun b =>
    if b.id == book_id then { b with available_copies := b.available_copies + delta } else b)

/-- Modelled from the spec: persistence `updateBookAvailability(id, delta)`;
reports failure when no such book row exists. -/
def update_book_availability (db : Database) (book_id : Nat) (delta : Int) :
    Bool × Database :=
  if db.books.any (fun b => b.id == book_id) then
    (true, { db with books := set_avail db.books book_id delta })
  else (false, db)

/-- Modelled from the spec: persistence `insertBorrowRecord(patronId, bookId,
borrowDate, dueDate)` — stores a fresh active record. -/
def insert_borrow_record (db : Database) (patron_id : String) (book_id : Nat)
    (borrow_date due_date : DateTime) : Bool × Database :=
  (true, { db with borrow_records := db.borrow_records ++
    [{ patron_id := patron_id, book_id := book_id, borrow_date := borrow_date,
       due_date := some due_date, return_date := none }] })

/-- Set `return_date` on every active record of the given (patron, book) pair. -/
def set_return (records : List BorrowRecord) (patron_id : String) (book_id : Nat)
    (return_date : DateTime) : List BorrowRecord :=
  records.map (fun r =>
    if r.isActive && r.patron_id == patron_id && r.book_id == book_id then
      { r with return_date := some return_date } else r)

/-- Modelled from the spec: persistence `updateBorrowRecordReturnDate(patronId,
bookId, returnDate)`; reports failure when no active record matches. -/
def update_borrow_record_return_date (db : Database) (patron_id : String) (book_id : Nat)
    (return_date : DateTime) : Bool × Database :=
  if db.borrow_records.any
      (fun r => r.isActive && r.patron_id == patron_id && r.book_id == book_id) then
    (true, { db with borrow_records := set_return db.borrow_records patron_id book_id return_date })
  else (false, db)

/-- A row returned by `getPatronBorrowedBooks`: the active record joined with
the book title. -/
structure BorrowedBookRow where
  book_id : Nat
  title : String
  due_date : Option DateTime
deriving DecidableEq, Repr

/-- Modelled from the spec: persistence `getPatronBorrowedBooks(patronId)` —
the patron's active records only, joined with book titles. -/
def get_patron_borrowed_books (db : Database) (patron_id : String) : List BorrowedBookRow :=
  (db.borrow_records.filter (fun r => r.isActive && r.patron_id == patron_id)).map
    (fun r =>
      { book_id := r.book_id,
        title := ((get_book_by_id db r.book_id).map Book.title).getD "",
        due_date := r.due_date })

/-- Modelled from the spec: persistence `getPatronBorrowCount(patronId)` —
the number of the patron's active records. -/
def get_patron_borrow_count (db : Database) (patron_id : String) : Nat :=
  (db.borrow_records.filter (fun r => r.isActive && r.patron_id == patron_id)).length

/-! ## Service layer (`services/library_service.py`) -/

/-- Leading and trailing whitespace removed from a character list. -/
def strip_chars (l : List Char) : List Char :=
  ((l.dropWhile Char.isWhitespace).reverse.dropWhile Char.isWhitespace).reverse

/-- Python `s.strip()`: the string with leading and trailing whitespace
removed (structurally recursive so that concrete instances evaluate). -/
def py_strip (s : String) : String := ⟨strip_chars s.data⟩

/-- Python `s.startswith(pre)`. -/
def py_startswith (s pre : String) : Bool := pre.data.isPrefixOf s.data

/-- Python `s.isdigit()`: nonempty and every character a digit. -/
def str_isdigit (s : String) : Bool := s.length != 0 && s.data.all Char.isDigit

/-- The patron-ID guard used verbatim by borrow/return/report/pay:
`not patron_id or not patron_id.isdigit() or len(patron_id) != 6`. -/
def patron_id_invalid (s : String) : Bool :=
  s.length == 0 || !(str_isdigit s) || s.length != 6

/-- Python `add_book_to_catalog(title, author, isbn, total_copies)`; returns the
`(success, message)` pair together with the resulting persisted state. -/
def add_book_to_catalog (db : Database) (title author isbn : String) (total_copies : Int) :
    (Bool × String) × Database :=
  if (py_strip title).length == 0 then ((false, "Title is required."), db)
  else if (py_strip title).length > 200 then
    ((false, "Title must be less than 200 characters."), db)
  else if (py_strip author).length == 0 then ((false, "Author is required."), db)
  else if (py_strip author).length > 100 then
    ((false, "Author must be less than 100 characters."), db)
  else if isbn.length != 13 then ((false, "ISBN must be exactly 13 digits."), db)
  else if total_copies ≤ 0 then ((false, "Total copies must be a positive integer."), db)
  else if (get_book_by_isbn db isbn).isSome then
    ((false, "A book with this ISBN already exists."), db)
  else
    let ins := insert_book db (py_strip title) (py_strip author) isbn total_copies total_copies
    if ins.1 then
      ((true, "Book \"" ++ py_strip title ++ "\" has been successfully added to the catalog."),
        ins.2)
    else ((false, "Database error occurred while adding the book."), ins.2)

/-- Python `borrow_book_by_patron(patron_id, book_id)`; `now` is the instant
`datetime.now()` returns at the borrow. -/
def borrow_book_by_patron (db : Database) (now : DateTime) (patron_id : String)
    (book_id : Nat) : (Bool × String) × Database :=
  if patron_id_invalid patron_id then
    ((false, "Invalid patron ID. Must be exactly 6 digits."), db)
  else match get_book_by_id db book_id with
  | none => ((false, "Book not found."), db)
  | some book =>
    if book.available_copies ≤ 0 then
      ((false, "This book is currently not available."), db)
    else if 5 ≤ get_patron_borrow_count db patron_id then
      ((false, "You have reached the maximum borrowing limit of 5 books."), db)
    else
      let due_date := now.addDays 14
      let ins := insert_borrow_record db patron_id book_id now due_date
      if !ins.1 then
        ((false, "Database error occurred while creating borrow record."), ins.2)
      else
        let upd := update_book_availability ins.2 book_id (-1)
        if !upd.1 then
          ((false, "Database error occurred while updating book availability."), upd.2)
        else
          ((true, "Successfully borrowed \"" ++ book.title ++ "\". Due date: " ++
            fmt_date due_date ++ "."), upd.2)

/-- Python `return_book_by_patron(patron_id, book_id)`; `now` is the instant of
the return. -/
def return_book_by_patron (db : Database) (now : DateTime) (patron_id : String)
    (book_id : Nat) : (Bool × String) × Database :=
  if patron_id_invalid patron_id then
    ((false, "Invalid patron ID. Must be exactly 6 digits."), db)
  else match get_book_by_id db book_id with
  | none => ((false, "Book not found."), db)
  | some book =>
    let current := get_patron_borrowed_books db patron_id
    match current.find? (fun r => r.book_id == book_id) with
    | none => ((false, "No active borrow record found for this patron and book."), db)
    | some active =>
      let fd := compute_fee_from_due_and_end active.due_date (some now)
      let upd1 := update_borrow_record_return_date db patron_id book_id now
      if !upd1.1 then ((false, "Database error while recording the return."), upd1.2)
      else
        let upd2 := update_book_availability upd1.2 book_id 1
        if !upd2.1 then
          ((false, "Database error while updating book availability."), upd2.2)
        else if 0 < fd.1 then
          ((true, "Returned \"" ++ book.title ++ "\". Late fee: $" ++ fmt_money fd.1 ++
            " (overdue by " ++ toString fd.2 ++ " day(s))."), upd2.2)
        else
          ((true, "Returned \"" ++ book.title ++ "\" on time. No late fee."), upd2.2)

/-- The dictionary `calculate_late_fee_for_book` produces (`due_date` is only
present on the found path; `none` otherwise). -/
structure FeeInfo where
  fee_amount : ℚ
  days_overdue : Int
  due_date : Option DateTime
  status : String
deriving DecidableEq, Repr

/-- Python `calculate_late_fee_for_book(patron_id, book_id)` at instant `now`. -/
def calculate_late_fee_for_book (db : Database) (now : DateTime) (patron_id : String)
    (book_id : Nat) : FeeInfo :=
  match (get_patron_borrowed_books db patron_id).find? (fun r => r.book_id == book_id) with
  | none => { fee_amount := 0, days_overdue := 0, due_date := none, status := "not_found" }
  | some active =>
    let fd := compute_fee_from_due_and_end active.due_date (some now)
    { fee_amount := monetize fd.1, days_overdue := fd.2, due_date := active.due_date,
      status := if 0 < fd.2 then "ok" else "not_overdue" }

/-- An entry of the `current_borrows` list of a status report. -/
structure CurrentBorrowEntry where
  book_id : Nat
  title : String
  due_date : Option String
  days_overdue : Int
  late_fee : ℚ
deriving DecidableEq, Repr

/-- An entry of the borrowing-history list of a status report. -/
structure HistoryEntry where
  book_id : Nat
  title : String
  borrow_date : Option String
  due_date : Option String
  return_date : Option String
deriving DecidableEq, Repr

/-- The report dictionary `get_patron_status_report` produces. -/
structure PatronStatusReport where
  patron_id : String
  current_borrows : List CurrentBorrowEntry
  current_borrow_count : Nat
  total_late_fees : ℚ
  history : List HistoryEntry
  status : String
deriving DecidableEq, Repr

/-- SQL `ORDER BY borrow_date DESC` comparison on timestamps. -/
def dt_le (a b : DateTime) : Bool := a.day < b.day || (a.day == b.day && a.tod ≤ b.tod)

/-- Insertion step of a newest-first sort on `borrow_date`. -/
def insert_desc (r : BorrowRecord) : List BorrowRecord → List BorrowRecord
  | [] => [r]
  | x :: xs =>
    if dt_le x.borrow_date r.borrow_date then r :: x :: xs else x :: insert_desc r xs

/-- Newest-borrowed-first sort of borrow records. -/
def sort_desc : List BorrowRecord → List BorrowRecord
  | [] => []
  | x :: xs => insert_desc x (sort_desc xs)

/-- The raw history query of `get_patron_status_report`: all of the patron's
borrow records (active and returned) inner-joined with book titles, ordered
newest-borrowed-first. -/
def borrow_history (db : Database) (patron_id : String) : List HistoryEntry :=
  (sort_desc (db.borrow_records.filter (fun r => r.patron_id == patron_id))).filterMap
    (fun r => (get_book_by_id db r.book_id).map (fun b =>
      { book_id := r.book_id, title := b.title,
        borrow_date := some (fmt_date r.borrow_date),
        due_date := r.due_date.map fmt_date,
        return_date := r.return_date.map fmt_date }))

/-- Python `get_patron_status_report(patron_id)` at instant `now`.  The raw
history query runs inside `try/except`; `history_query_raises = true` models
the collaborator fault the `except` swallows (history then stays empty). -/
def get_patron_status_report (db : Database) (now : DateTime)
    (history_query_raises : Bool) (patron_id : String) : PatronStatusReport :=
  if patron_id_invalid patron_id then
    { patron_id := patron_id, current_borrows := [], current_borrow_count := 0,
      total_late_fees := 0, history := [], status := "invalid_patron_id" }
  else
    let current := get_patron_borrowed_books db patron_id
    let entries := current.map (fun r =>
      let fd := compute_fee_from_due_and_end r.due_date (some now)
      { book_id := r.book_id, title := r.title, due_date := r.due_date.map fmt_date,
        days_overdue := fd.2, late_fee := monetize fd.1 : CurrentBorrowEntry })
    let total_fees := (current.map
      (fun r => (compute_fee_from_due_and_end r.due_date (some now)).1)).sum
    { patron_id := patron_id, current_borrows := entries,
      current_borrow_count := entries.length,
      total_late_fees := monetize total_fees,
      history := if history_query_raises then [] else borrow_history db patron_id,
      status := "ok" }

/-! ## Payment settlement -/

/-- The outcome a `process_payment` call on the gateway collaborator would
produce: either a returned `(success, transaction_id, message)` triple or a
raised exception (carrying its message). -/
inductive PaymentOutcome where
  | result (success : Bool) (transaction_id : String) (message : String)
  | raises (error : String)
deriving DecidableEq, Repr

/-- The value `pay_late_fees` returns, plus whether the gateway was invoked. -/
structure PayResult where
  success : Bool
  message : String
  transaction_id : Option String
  gateway_called : Bool
deriving DecidableEq, Repr

/-- Python `pay_late_fees(patron_id, book_id, payment_gateway)` at instant
`now`; `gateway` is the outcome the gateway produces if invoked. -/
def pay_late_fees (db : Database) (now : DateTime) (patron_id : String) (book_id : Nat)
    (gateway : PaymentOutcome) : PayResult :=
  if patron_id_invalid patron_id then
    { success := false, message := "Invalid patron ID. Must be exactly 6 digits.",
      transaction_id := none, gateway_called := false }
  else
    let fee_info := calculate_late_fee_for_book db now patron_id book_id
    if fee_info.fee_amount ≤ 0 then
      { success := false, message := "No late fees to pay for this book.",
        transaction_id := none, gateway_called := false }
    else match get_book_by_id db book_id with
    | none => { success := false, message := "Book not found.",
                transaction_id := none, gateway_called := false }
    | some _ =>
      match gateway with
      | .result true txn msg =>
        { success := true, message := "Payment successful! " ++ msg,
          transaction_id := some txn, gateway_called := true }
      | .result false _ msg =>
        { success := false, message := "Payment failed: " ++ msg,
          transaction_id := none, gateway_called := true }
      | .raises e =>
        { success := false, message := "Payment processing error: " ++ e,
          transaction_id := none, gateway_called := true }

/-- The outcome a `refund_payment` call on the gateway would produce. -/
inductive RefundOutcome where
  | result (success : Bool) (message : String)
  | raises (error : String)
deriving DecidableEq, Repr

/-- The value `refund_late_fee_payment` returns, plus whether the gateway was
invoked. -/
structure RefundResult where
  success : Bool
  message : String
  gateway_called : Bool
deriving DecidableEq, Repr

/-- Python `refund_late_fee_payment(transaction_id, amount, payment_gateway)`. -/
def refund_late_fee_payment (transaction_id : String) (amount : ℚ)
    (gateway : RefundOutcome) : RefundResult :=
  if transaction_id.length == 0 || !(py_startswith transaction_id "txn_") then
    { success := false, message := "Invalid transaction ID.", gateway_called := false }
  else if amount ≤ 0 then
    { success := false, message := "Refund amount must be greater than 0.",
      gateway_called := false }
  else if 15 < amount then
    { success := false, message := "Refund amount exceeds maximum late fee.",
      gateway_called := false }
  else match gateway with
  | .result true msg => { success := true, message := msg, gateway_called := true }
  | .result false msg =>
    { success := false, message := "Refund failed: " ++ msg, gateway_called := true }
  | .raises e =>
    { success := false, message := "Refund processing error: " ++ e, gateway_called := true }

/-! ## Claim theorems -/

/-- C1: for present timestamps the fee calculator returns `(0, 0)` when the
end date is not after the due date, and otherwise returns the overdue-day
difference of the calendar dates together with the tiered fee
`min(0.50 × min(days,7) + 1.00 × max(days−7,0), 15.00)` (2-decimal rounding
is the identity on these amounts); an absent timestamp on either side yields
`(0, 0)`. -/
theorem C1_fee_calculator (due e : DateTime) :
    compute_fee_from_due_and_end none none = (0, 0) ∧
    compute_fee_from_due_and_end none (some e) = (0, 0) ∧
    compute_fee_from_due_and_end (some due) none = (0, 0) ∧
    (e.date ≤ due.date → compute_fee_from_due_and_end (some due) (some e) = (0, 0)) ∧
    (due.date < e.date →
      compute_fee_from_due_and_end (some due) (some e) =
        (min ((1/2 : ℚ) * ((min (e.date - due.date) 7 : Int) : ℚ) +
          1 * ((max (e.date - due.date - 7) 0 : Int) : ℚ)) 15,
         e.date - due.date)) := by
  refine ⟨rfl, rfl, rfl, ?_, ?_⟩
  · intro h
    exact compute_fee_some_nonpos due e (by omega)
  · intro h
    rw [compute_fee_some_pos due e (by omega)]
    simp only [Prod.mk.injEq]
    refine ⟨?_, trivial⟩
    congr 1
    ring

/-- Witness for C1 at concrete dates: due day 0, end day 10 (10 days overdue,
fee $6.50) and due day 5, end day 5 (same date, later time: no fee). -/
theorem C1_fee_calculator_witness :
    compute_fee_from_due_and_end (some ⟨0, 0⟩) (some ⟨10, 0⟩) = (13/2, 10) ∧
    compute_fee_from_due_and_end (some ⟨5, 0⟩) (some ⟨5, 3⟩) = (0, 0) := by
  constructor
  · have h := (C1_fee_calculator ⟨0, 0⟩ ⟨10, 0⟩).2.2.2.2 (by decide)
    rw [h]
    norm_num [DateTime.date, min_def, max_def]
  · exact (C1_fee_calculator ⟨5, 0⟩ ⟨5, 3⟩).2.2.2.1 (by decide)

/-- C2: every computed fee lies in `[0, 15]`; the fee is non-decreasing as a
function of the returned overdue-day count; and the fee is `0` whenever the
date difference is non-positive. -/
theorem C2_fee_properties (p1 n1 p2 n2 : Option DateTime) (due e : DateTime) :
    0 ≤ (compute_fee_from_due_and_end p1 n1).1 ∧
    (compute_fee_from_due_and_end p1 n1).1 ≤ 15 ∧
    ((compute_fee_from_due_and_end p1 n1).2 ≤ (compute_fee_from_due_and_end p2 n2).2 →
      (compute_fee_from_due_and_end p1 n1).1 ≤ (compute_fee_from_due_and_end p2 n2).1) ∧
    (e.date - due.date ≤ 0 → (compute_fee_from_due_and_end (some due) (some e)).1 = 0) := by
  refine ⟨?_, ?_, ?_, ?_⟩
  · rw [compute_fee_fst_eq]
    exact spec_fee_formula_nonneg _
  · rw [compute_fee_fst_eq]
    exact spec_fee_formula_le _
  · intro h
    rw [compute_fee_fst_eq, compute_fee_fst_eq]
    exact spec_fee_formula_mono h
  · intro h
    rw [compute_fee_some_nonpos due e h]

/-- Witness for C2: 4 overdue days cost no more than 30 overdue days, and a
due date one day after the evaluation date carries no fee. -/
theorem C2_fee_properties_witness :
    (compute_fee_from_due_and_end (some ⟨0, 0⟩) (some ⟨4, 0⟩)).1 ≤
      (compute_fee_from_due_and_end (some ⟨0, 0⟩) (some ⟨30, 0⟩)).1 ∧
    (compute_fee_from_due_and_end (some ⟨3, 0⟩) (some ⟨2, 0⟩)).1 = 0 := by
  have h := C2_fee_properties (some ⟨0, 0⟩) (some ⟨4, 0⟩) (some ⟨0, 0⟩) (some ⟨30, 0⟩) ⟨3, 0⟩ ⟨2, 0⟩
  exact ⟨h.2.2.1 (by decide), h.2.2.2 (by decide)⟩

lemma any_of_find?_eq_some {α} {p : α → Bool} {l : List α} {a : α}
    (h : l.find? p = some a) : l.any p = true :=
  List.any_eq_true.mpr ⟨a, List.mem_of_find?_eq_some h, List.find?_some h⟩

/-- C3 (counter-evaluation): the catalog validation checks only the LENGTH of
the ISBN, so the 13-character non-digit string "ABCDEFGHIJKLM" passes every
guard and the book is inserted — contradicting the claim (and the code's own
docstring and error message) that every non-13-DIGIT ISBN is rejected. -/
theorem C3_isbn_digits_not_checked :
    add_book_to_catalog ⟨[], []⟩ "Book" "Author" "ABCDEFGHIJKLM" 5 =
      ((true, "Book \"Book\" has been successfully added to the catalog."),
       ⟨[{ id := 1, title := "Book", author := "Author", isbn := "ABCDEFGHIJKLM",
           total_copies := 5, available_copies := 5 }], []⟩) := by
  rfl

/-- C4: borrow fails, leaving the persisted state untouched, on an invalid
patron ID, a missing book, an unavailable book (no copies), or a patron at the
5-active-borrow limit; when all four preconditions hold it appends an active
borrow record due 14 days from now and decrements the availability of the
book by one. -/
theorem C4_borrow_guards (db : Database) (now : DateTime) (pid : String) (bid : Nat) :
    (patron_id_invalid pid = true →
      borrow_book_by_patron db now pid bid =
        ((false, "Invalid patron ID. Must be exactly 6 digits."), db)) ∧
    (patron_id_invalid pid = false → get_book_by_id db bid = none →
      borrow_book_by_patron db now pid bid = ((false, "Book not found."), db)) ∧
    (∀ b, patron_id_invalid pid = false → get_book_by_id db bid = some b →
      b.available_copies ≤ 0 →
      borrow_book_by_patron db now pid bid =
        ((false, "This book is currently not available."), db)) ∧
    (∀ b, patron_id_invalid pid = false → get_book_by_id db bid = some b →
      0 < b.available_copies → 5 ≤ get_patron_borrow_count db pid →
      borrow_book_by_patron db now pid bid =
        ((false, "You have reached the maximum borrowing limit of 5 books."), db)) ∧
    (∀ b, patron_id_invalid pid = false → get_book_by_id db bid = some b →
      0 < b.available_copies → get_patron_borrow_count db pid < 5 →
      borrow_book_by_patron db now pid bid =
        ((true, "Successfully borrowed \"" ++ b.title ++ "\". Due date: " ++
          fmt_date (now.addDays 14) ++ "."),
         { books := set_avail db.books bid (-1),
           borrow_records := db.borrow_records ++
             [{ patron_id := pid, book_id := bid, borrow_date := now,
                due_date := some (now.addDays 14), return_date := none }] })) := by
  refine ⟨?_, ?_, ?_, ?_, ?_⟩
  · intro h
    rw [borrow_book_by_patron, if_pos h]
  · intro h1 h2
    rw [borrow_book_by_patron, if_neg (by simp [h1]), h2]
  · intro b h1 h2 h3
    rw [borrow_book_by_patron, if_neg (by simp [h1]), h2]
    simp only [if_pos h3]
  · intro b h1 h2 h3 h4
    rw [borrow_book_by_patron, if_neg (by simp [h1]), h2]
    simp only [if_neg (not_le.mpr h3), if_pos h4]
  · intro b h1 h2 h3 h4
    have hany : db.books.any (fun x => x.id == bid) = true := any_of_find?_eq_some h2
    rw [borrow_book_by_patron, if_neg (by simp [h1]), h2]
    simp only [if_neg (not_le.mpr h3), if_neg (not_le.mpr h4),
      insert_borrow_record, update_book_availability, hany, if_pos, Bool.not_true,
      Bool.false_eq_true, if_false, set_avail]

/-- A sample catalog book and a one-book store used by concrete witnesses. -/
def book1 : Book :=
  { id := 1, title := "Dune", author := "Herbert", isbn := "1234567890123",
    total_copies := 3, available_copies := 2 }

/-- A store holding `book1` and no borrow records. -/
def db_one : Database := { books := [book1], borrow_records := [] }

/-- Witness for C4: a valid borrow on `db_one` creates the record and
decrements availability; a 5-digit patron ID is rejected untouched. -/
theorem C4_borrow_guards_witness :
    borrow_book_by_patron db_one ⟨0, 0⟩ "123456" 1 =
      ((true, "Successfully borrowed \"" ++ book1.title ++ "\". Due date: " ++
        fmt_date (DateTime.addDays ⟨0, 0⟩ 14) ++ "."),
       { books := set_avail db_one.books 1 (-1),
         borrow_records := db_one.borrow_records ++
           [{ patron_id := "123456", book_id := 1, borrow_date := ⟨0, 0⟩,
              due_date := some (DateTime.addDays ⟨0, 0⟩ 14), return_date := none }] }) ∧
    borrow_book_by_patron db_one ⟨0, 0⟩ "12345" 1 =
      ((false, "Invalid patron ID. Must be exactly 6 digits."), db_one) := by
  constructor
  · exact (C4_borrow_guards db_one ⟨0, 0⟩ "123456" 1).2.2.2.2 book1
      (by decide) rfl (by decide) (by decide)
  · exact (C4_borrow_guards db_one ⟨0, 0⟩ "12345" 1).1 (by decide)

lemma active_record_of_row {db : Database} {pid : String} {bid : Nat} {row : BorrowedBookRow}
    (h : (get_patron_borrowed_books db pid).find? (fun r => r.book_id == bid) = some row) :
    db.borrow_records.any
      (fun r => r.isActive && r.patron_id == pid && r.book_id == bid) = true := by
  have hmem := List.mem_of_find?_eq_some h
  have hpred := List.find?_some h
  simp only [get_patron_borrowed_books, List.mem_map, List.mem_filter] at hmem
  obtain ⟨r, ⟨hrl, hq⟩, hfr⟩ := hmem
  apply List.any_eq_true.mpr
  refine ⟨r, hrl, ?_⟩
  have hb : r.book_id = row.book_id := by rw [← hfr]
  simp only [Bool.and_eq_true] at hq hpred ⊢
  exact ⟨⟨hq.1, hq.2⟩, by rw [hb]; exact hpred⟩

/-- C5: with a valid patron ID and an existing book, return fails leaving the
state untouched when the patron has no active record for the book; with an
active record it marks the pair returned, increments availability by one, and
reports the fee — computed from the record's due date against the instant of
return — in the message when positive, an on-time return otherwise. -/
theorem C5_return_book (db : Database) (now : DateTime) (pid : String) (bid : Nat)
    (b : Book) (h1 : patron_id_invalid pid = false) (h2 : get_book_by_id db bid = some b) :
    ((get_patron_borrowed_books db pid).find? (fun r => r.book_id == bid) = none →
      return_book_by_patron db now pid bid =
        ((false, "No active borrow record found for this patron and book."), db)) ∧
    (∀ row, (get_patron_borrowed_books db pid).find? (fun r => r.book_id == bid) = some row →
      return_book_by_patron db now pid bid =
        (let fd := compute_fee_from_due_and_end row.due_date (some now)
         let db' : Database :=
           { books := set_avail db.books bid 1,
             borrow_records := set_return db.borrow_records pid bid now }
         if 0 < fd.1 then
           ((true, "Returned \"" ++ b.title ++ "\". Late fee: $" ++ fmt_money fd.1 ++
             " (overdue by " ++ toString fd.2 ++ " day(s))."), db')
         else ((true, "Returned \"" ++ b.title ++ "\" on time. No late fee."), db'))) := by
  constructor
  · intro h3
    rw [return_book_by_patron, if_neg (by simp [h1]), h2]
    simp only [h3]
  · intro row h3
    have hany := active_record_of_row h3
    have hbook : db.books.any (fun x => x.id == bid) = true := any_of_find?_eq_some h2
    rw [return_book_by_patron, if_neg (by simp [h1]), h2]
    simp only [h3, update_borrow_record_return_date, hany, if_true,
      update_book_availability, hbook, Bool.not_true, Bool.false_eq_true, if_false]

/-- An active borrow of `book1` by patron 123456, due on day 10. -/
def rec1 : BorrowRecord :=
  { patron_id := "123456", book_id := 1, borrow_date := ⟨0, 0⟩,
    due_date := some ⟨10, 0⟩, return_date := none }

/-- A store where patron 123456 currently holds `book1`. -/
def db_loan : Database := { books := [book1], borrow_records := [rec1] }

/-- Witness for C5: returning `book1` 4 days late yields the $2.00 fee
message and the updated state; patron 654321 holds no record for it and is
refused with the store untouched. -/
theorem C5_return_book_witness :
    return_book_by_patron db_loan ⟨14, 0⟩ "123456" 1 =
      ((true, "Returned \"Dune\". Late fee: $2.00 (overdue by 4 day(s))."),
       { books := set_avail db_loan.books 1 1,
         borrow_records := set_return db_loan.borrow_records "123456" 1 ⟨14, 0⟩ }) ∧
    return_book_by_patron db_loan ⟨14, 0⟩ "654321" 1 =
      ((false, "No active borrow record found for this patron and book."), db_loan) := by
  constructor
  · have h := (C5_return_book db_loan ⟨14, 0⟩ "123456" 1 book1 (by decide) rfl).2
      { book_id := 1, title := "Dune", due_date := some ⟨10, 0⟩ } rfl
    rw [h]
    have hfee : compute_fee_from_due_and_end (some ⟨10, 0⟩) (some ⟨14, 0⟩) = (2, 4) := by
      norm_num [compute_fee_from_due_and_end, DateTime.date, monetize, round_eq,
        min_def, max_def]
    simp only [hfee]
    norm_num [fmt_money, round_eq]
    rfl
  · exact (C5_return_book db_loan ⟨14, 0⟩ "654321" 1 book1 (by decide) rfl).1 rfl

/-- C6: for every patron ID that is not exactly 6 digits the status report is
the invalid-ID shell — empty borrows and history, zero count and fees —
identically for every persisted state and every history-query outcome. -/
theorem C6_invalid_patron_report (db : Database) (now : DateTime) (hq : Bool)
    (pid : String) (h : ¬ (pid.length = 6 ∧ pid.data.all Char.isDigit = true)) :
    get_patron_status_report db now hq pid =
      { patron_id := pid, current_borrows := [], current_borrow_count := 0,
        total_late_fees := 0, history := [], status := "invalid_patron_id" } := by
  have hinv : patron_id_invalid pid = true := by
    rw [patron_id_invalid, str_isdigit]
    by_cases h6 : pid.length = 6
    · have hd : pid.data.all Char.isDigit = false := by
        cases hall : pid.data.all Char.isDigit
        · rfl
        · exact absurd ⟨h6, hall⟩ h
      simp [h6, hd]
    · simp [h6]
  rw [get_patron_status_report, if_pos hinv]

/-- Witness for C6: ID "12a456" (6 characters, one non-digit) on a store that
does hold records still yields the empty shell. -/
theorem C6_invalid_patron_report_witness :
    get_patron_status_report db_loan ⟨14, 0⟩ false "12a456" =
      { patron_id := "12a456", current_borrows := [], current_borrow_count := 0,
        total_late_fees := 0, history := [], status := "invalid_patron_id" } :=
  C6_invalid_patron_report db_loan ⟨14, 0⟩ false "12a456" (by decide)

/-- C7: for a valid patron ID, a fault during history assembly is swallowed:
the history comes back empty while the status stays "ok" and the patron ID,
current borrows, borrow count and total fees are exactly those of the
fault-free report. -/
theorem C7_history_best_effort (db : Database) (now : DateTime) (pid : String)
    (h : patron_id_invalid pid = false) :
    (get_patron_status_report db now true pid).history = [] ∧
    (get_patron_status_report db now true pid).status = "ok" ∧
    (get_patron_status_report db now true pid).patron_id =
      (get_patron_status_report db now false pid).patron_id ∧
    (get_patron_status_report db now true pid).current_borrows =
      (get_patron_status_report db now false pid).current_borrows ∧
    (get_patron_status_report db now true pid).current_borrow_count =
      (get_patron_status_report db now false pid).current_borrow_count ∧
    (get_patron_status_report db now true pid).total_late_fees =
      (get_patron_status_report db now false pid).total_late_fees := by
  simp only [get_patron_status_report, h, Bool.false_eq_true, if_false]
  simp

/-- Witness for C7: the faulting report for patron 123456 on `db_loan` has an
empty history yet status "ok". -/
theorem C7_history_best_effort_witness :
    (get_patron_status_report db_loan ⟨14, 0⟩ true "123456").history = [] ∧
    (get_patron_status_report db_loan ⟨14, 0⟩ true "123456").status = "ok" :=
  ⟨(C7_history_best_effort db_loan ⟨14, 0⟩ "123456" (by decide)).1,
   (C7_history_best_effort db_loan ⟨14, 0⟩ "123456" (by decide)).2.1⟩

/-- C8: with a valid patron ID, a computed fee that is zero (or negative)
makes `pay_late_fees` fail with the no-fees message without invoking the
gateway; and whenever the gateway is invoked and raises, the raise is caught
and becomes the processing-error failure result. -/
theorem C8_pay_guards (db : Database) (now : DateTime) (pid : String) (bid : Nat)
    (gw : PaymentOutcome) (e : String) :
    (patron_id_invalid pid = false →
      (calculate_late_fee_for_book db now pid bid).fee_amount ≤ 0 →
      pay_late_fees db now pid bid gw =
        { success := false, message := "No late fees to pay for this book.",
          transaction_id := none, gateway_called := false }) ∧
    ((pay_late_fees db now pid bid (.raises e)).gateway_called = true →
      pay_late_fees db now pid bid (.raises e) =
        { success := false, message := "Payment processing error: " ++ e,
          transaction_id := none, gateway_called := true }) := by
  constructor
  · intro h1 h2
    rw [pay_late_fees.eq_def, if_neg (by simp [h1]), if_pos h2]
  · intro hc
    by_cases h1 : patron_id_invalid pid = true
    · rw [pay_late_fees.eq_def, if_pos h1] at hc
      simp at hc
    · rw [pay_late_fees.eq_def, if_neg h1] at hc
      rw [pay_late_fees.eq_def, if_neg h1]
      by_cases h2 : (calculate_late_fee_for_book db now pid bid).fee_amount ≤ 0
      · rw [if_pos h2] at hc
        simp at hc
      · rw [if_neg h2] at hc
        rw [if_neg h2]
        cases hb : get_book_by_id db bid with
        | none =>
          rw [hb] at hc
          simp at hc
        | some b =>
          rfl

/-- Evaluation helper: on `db_loan` at day 14 the computed fee for `book1` is
$2.00 after 4 overdue days. -/
lemma db_loan_fee_day14 :
    calculate_late_fee_for_book db_loan ⟨14, 0⟩ "123456" 1 =
      { fee_amount := 2, days_overdue := 4, due_date := some ⟨10, 0⟩, status := "ok" } := by
  have hrow : (get_patron_borrowed_books db_loan "123456").find?
      (fun r => r.book_id == 1) = some ⟨1, "Dune", some ⟨10, 0⟩⟩ := rfl
  have hfee : compute_fee_from_due_and_end (some ⟨10, 0⟩) (some ⟨14, 0⟩) = (2, 4) := by
    norm_num [compute_fee_from_due_and_end, DateTime.date, monetize, round_eq,
      min_def, max_def]
  rw [calculate_late_fee_for_book, hrow]
  simp only [hfee]
  norm_num [monetize, round_eq]

/-- Evaluation helper: on `db_loan` at day 5 (before the due date) the
computed fee is zero. -/
lemma db_loan_fee_day5 :
    calculate_late_fee_for_book db_loan ⟨5, 0⟩ "123456" 1 =
      { fee_amount := 0, days_overdue := 0, due_date := some ⟨10, 0⟩,
        status := "not_overdue" } := by
  have hrow : (get_patron_borrowed_books db_loan "123456").find?
      (fun r => r.book_id == 1) = some ⟨1, "Dune", some ⟨10, 0⟩⟩ := rfl
  have hfee : compute_fee_from_due_and_end (some ⟨10, 0⟩) (some ⟨5, 0⟩) = (0, 0) := by
    norm_num [compute_fee_from_due_and_end, DateTime.date]
  rw [calculate_late_fee_for_book, hrow]
  simp only [hfee]
  norm_num [monetize, round_eq]

/-- Witness for C8: paying before the due date fails with the no-fees message
and an un-invoked gateway; a gateway raise on an overdue loan becomes the
processing-error result. -/
theorem C8_pay_guards_witness :
    pay_late_fees db_loan ⟨5, 0⟩ "123456" 1 (.result true "txn_123" "Done") =
      { success := false, message := "No late fees to pay for this book.",
        transaction_id := none, gateway_called := false } ∧
    pay_late_fees db_loan ⟨14, 0⟩ "123456" 1 (.raises "Network error") =
      { success := false, message := "Payment processing error: Network error",
        transaction_id := none, gateway_called := true } := by
  constructor
  · exact (C8_pay_guards db_loan ⟨5, 0⟩ "123456" 1 (.result true "txn_123" "Done") "x").1
      (by decide) (by simp [db_loan_fee_day5])
  · have hc : (pay_late_fees db_loan ⟨14, 0⟩ "123456" 1
        (.raises "Network error")).gateway_called = true := by
      rw [pay_late_fees, if_neg (by decide), if_neg (by simp [db_loan_fee_day14])]
      rfl
    exact (C8_pay_guards db_loan ⟨14, 0⟩ "123456" 1 (.raises "Network error")
      "Network error").2 hc

/-- C9: refund rejects, without contacting the gateway, any transaction ID
not bearing the "txn_" prefix, any amount ≤ 0 and any amount > 15; when all
three validations pass it delegates to the gateway, mapping the boolean
outcome and converting a raise into the processing-error failure. -/
theorem C9_refund_guards (tid : String) (amount : ℚ) (gw : RefundOutcome)
    (s : Bool) (msg e : String) :
    (py_startswith tid "txn_" = false →
      refund_late_fee_payment tid amount gw =
        { success := false, message := "Invalid transaction ID.",
          gateway_called := false }) ∧
    (amount ≤ 0 →
      (refund_late_fee_payment tid amount gw).success = false ∧
      (refund_late_fee_payment tid amount gw).gateway_called = false) ∧
    (15 < amount →
      (refund_late_fee_payment tid amount gw).success = false ∧
      (refund_late_fee_payment tid amount gw).gateway_called = false) ∧
    (py_startswith tid "txn_" = true → 0 < amount → amount ≤ 15 →
      refund_late_fee_payment tid amount (.result s msg) =
        (if s then { success := true, message := msg, gateway_called := true }
         else { success := false, message := "Refund failed: " ++ msg,
                gateway_called := true }) ∧
      refund_late_fee_payment tid amount (.raises e) =
        { success := false, message := "Refund processing error: " ++ e,
          gateway_called := true }) := by
  refine ⟨?_, ?_, ?_, ?_⟩
  · intro h
    rw [refund_late_fee_payment.eq_def, if_pos (by simp [h])]
  · intro h
    by_cases hc : (tid.length == 0 || !(py_startswith tid "txn_")) = true
    · rw [refund_late_fee_payment.eq_def, if_pos hc]
      exact ⟨rfl, rfl⟩
    · rw [refund_late_fee_payment.eq_def, if_neg hc, if_pos h]
      exact ⟨rfl, rfl⟩
  · intro h
    by_cases hc : (tid.length == 0 || !(py_startswith tid "txn_")) = true
    · rw [refund_late_fee_payment.eq_def, if_pos hc]
      exact ⟨rfl, rfl⟩
    · rw [refund_late_fee_payment.eq_def, if_neg hc,
        if_neg (not_le.mpr (by linarith : (0 : ℚ) < amount)), if_pos h]
      exact ⟨rfl, rfl⟩
  · intro h4 h5 h6
    have hlen : tid.length ≠ 0 := by
      have hp : "txn_".data <+: tid.data := List.isPrefixOf_iff_prefix.mp h4
      have := hp.length_le
      simp only [String.length]
      intro h0
      rw [h0] at this
      simp at this
    have hcond : ¬ ((tid.length == 0 || !(py_startswith tid "txn_")) = true) := by
      simp [h4, hlen]
    constructor
    · rw [refund_late_fee_payment.eq_def, if_neg hcond, if_neg (not_le.mpr h5),
        if_neg (not_lt.mpr h6)]
      cases s
      · rfl
      · rfl
    · rw [refund_late_fee_payment.eq_def, if_neg hcond, if_neg (not_le.mpr h5),
        if_neg (not_lt.mpr h6)]

/-- Witness for C9: a prefixed ID with a $5 amount reaches the gateway and a
successful refund maps through; the ID "abc" is rejected untouched. -/
theorem C9_refund_guards_witness :
    refund_late_fee_payment "txn_98765" 5 (.result true "Refund processed") =
      { success := true, message := "Refund processed", gateway_called := true } ∧
    refund_late_fee_payment "abc" 5 (.result true "Refund processed") =
      { success := false, message := "Invalid transaction ID.",
        gateway_called := false } := by
  constructor
  · have h := ((C9_refund_guards "txn_98765" 5 (.result true "Refund processed")
      true "Refund processed" "x").2.2.2 (by decide) (by norm_num) (by norm_num)).1
    simpa using h
  · exact (C9_refund_guards "abc" 5 (.result true "Refund processed")
      true "Refund processed" "x").1 (by decide)

/-- C10: `pay_late_fees` carries a transaction identifier exactly when it
succeeds — every failure path returns `none` — and on the success path the
identifier is exactly the one the gateway returned. -/
theorem C10_txn_iff_success (db : Database) (now : DateTime) (pid : String) (bid : Nat)
    (gw : PaymentOutcome) (txn msg : String) :
    ((pay_late_fees db now pid bid gw).transaction_id ≠ none ↔
      (pay_late_fees db now pid bid gw).success = true) ∧
    (gw = .result true txn msg → (pay_late_fees db now pid bid gw).success = true →
      (pay_late_fees db now pid bid gw).transaction_id = some txn) := by
  by_cases h1 : patron_id_invalid pid = true
  · rw [pay_late_fees.eq_def, if_pos h1]
    exact ⟨by simp, fun _ hs => by simp at hs⟩
  · rw [pay_late_fees.eq_def, if_neg h1]
    by_cases h2 : (calculate_late_fee_for_book db now pid bid).fee_amount ≤ 0
    · rw [if_pos h2]
      exact ⟨by simp, fun _ hs => by simp at hs⟩
    · rw [if_neg h2]
      cases hb : get_book_by_id db bid with
      | none => exact ⟨by simp, fun _ hs => by simp at hs⟩
      | some b =>
        cases gw with
        | result s t m =>
          cases s with
          | false =>
            exact ⟨by simp, fun heq _ => by simp at heq⟩
          | true =>
            constructor
            · simp
            · intro heq _
              simp only [PaymentOutcome.result.injEq] at heq
              simp [heq.2.1]
        | raises e2 => exact ⟨by simp, fun heq _ => by simp at heq⟩

/-- Witness for C10: on a 4-day-overdue loan a successful gateway payment
surfaces exactly the gateway's transaction identifier. -/
theorem C10_txn_iff_success_witness :
    (pay_late_fees db_loan ⟨14, 0⟩ "123456" 1
      (.result true "txn_123" "Done")).transaction_id = some "txn_123" := by
  have hs : (pay_late_fees db_loan ⟨14, 0⟩ "123456" 1
      (.result true "txn_123" "Done")).success = true := by
    rw [pay_late_fees, if_neg (by decide), if_neg (by simp [db_loan_fee_day14])]
    rfl
  exact (C10_txn_iff_success db_loan ⟨14, 0⟩ "123456" 1
    (.result true "txn_123" "Done") "txn_123" "Done").2 rfl hs
